import Mathlib

/-!
Verification of the `supervisordkratos` Go package: a builder producing
supervisord INI configuration text from `ProgramConfig` / `GroupConfig`
records.  The Go code is shallowly embedded below: pure Go functions become
Lean functions, Go `panic` paths (the `must.*` guards and the autorestart
type-switch default) become `Option` failures (`none` = panic, so a failing
call returns no text at all), and the unordered iteration of the Go
`map[string]string` environment field is made explicit by passing the
iteration order of one render call as a parameter (any permutation of the
stored entries is an admissible order for a call).
-/

set_option autoImplicit false

/-! ### The `Opt` wrapper (source: the `Opt[T]` type appended in `go.mod`) -/

/-- `Opt[T]` from the source: a stored value plus an `isSet` flag. -/
structure Opt (T : Type) where
  Value : T
  isSet : Bool
  deriving DecidableEq

/-- `NewOpt`: store the default, `isSet = false`. -/
def NewOpt {T : Type} (v : T) : Opt T := ⟨v, false⟩

/-- `Get`: returns the current value regardless of the `isSet` flag. -/
def Opt.Get {T : Type} (sv : Opt T) : T := sv.Value

/-- `Set`: stores the new value and forces `isSet = true`. -/
def Opt.Set {T : Type} (_sv : Opt T) (v : T) : Opt T := ⟨v, true⟩

/-- `IsSet`: true iff `Set` has been called since construction. -/
def Opt.IsSet {T : Type} (sv : Opt T) : Bool := sv.isSet

/-- One mutation of an `Opt` cell: the only mutating operation is `Set`
(`Get`/`IsSet` are read-only and do not change state). -/
inductive OptOp (T : Type) where
  | set (v : T)

/-- Apply a sequence of mutations to an `Opt` cell, oldest first. -/
def applyOptOps {T : Type} (o : Opt T) : List (OptOp T) → Opt T
  | [] => o
  | OptOp.set v :: rest => applyOptOps (o.Set v) rest

/-- The value stored after a sequence of `Set` calls: the argument of the
last `Set`, or the starting value when no `Set` happened (last write wins). -/
def lastSetValue {T : Type} (d : T) : List (OptOp T) → T
  | [] => d
  | OptOp.set v :: rest => lastSetValue v rest

/-! ### Go library helpers used by the renderer -/

/-- Go `strconv.FormatBool`. -/
def goFormatBool (b : Bool) : String := if b then "true" else "false"

/-- Go `strconv.Itoa` (decimal, minus sign when negative). -/
def goItoa (i : Int) : String := toString i

/-- Go `strings.Join(elems, sep)`. -/
def goStringsJoin (elems : List String) (sep : String) : String :=
  match elems with
  | [] => ""
  | x :: xs => xs.foldl (fun acc e => acc ++ sep ++ e) x

/-- Boolean list-prefix test (used to talk about the fixed label of a line). -/
def listStarts : List Char → List Char → Bool
  | [], _ => true
  | _ :: _, [] => false
  | a :: as, b :: bs => a == b && listStarts as bs

/-- `strStarts pre s`: `s` starts with the string `pre`. -/
def strStarts (pre s : String) : Bool := listStarts pre.data s.data

/-- Split a string at every `/` (as Go's path code does when cleaning). -/
def splitOnSlashAux : List Char → List Char → List String
  | [], cur => [String.mk cur.reverse]
  | c :: cs, cur =>
    if c = '/' then String.mk cur.reverse :: splitOnSlashAux cs []
    else splitOnSlashAux cs (c :: cur)

/-- All `/`-separated segments of a string. -/
def splitOnSlash (s : String) : List String := splitOnSlashAux s.data []

/-- One step of Go `path.Clean` segment processing (`out` is the processed
stack, most recent first): drop empty and `.` segments, let `..` pop a
previous segment (or accumulate when there is nothing to pop and the path is
not rooted), push everything else. -/
def cleanStep (rooted : Bool) (out : List String) (seg : String) : List String :=
  if seg = "" ∨ seg = "." then out
  else if seg = ".." then
    match out with
    | [] => if rooted then [] else [".."]
    | top :: rest => if top = ".." then seg :: out else rest
  else seg :: out

/-- Go `path.Clean` for the `/` separator (what `filepath.Clean` does on
Unix): lexical cleaning of duplicate separators, `.` and `..` elements. -/
def goPathClean (path : String) : String :=
  if path = "" then "." else
  let rooted := listStarts ['/'] path.data
  let out := ((splitOnSlash path).foldl (cleanStep rooted) []).reverse
  if rooted then "/" ++ goStringsJoin out "/"
  else if out.isEmpty then "." else goStringsJoin out "/"

/-- Go `filepath.Join` on Unix: skip leading empty elements, join the rest
with `/`, then `Clean` the result; all-empty input gives `""`. -/
def goFilepathJoin (elems : List String) : String :=
  match elems.dropWhile (· = "") with
  | [] => ""
  | e :: rest => goPathClean (goStringsJoin (e :: rest) "/")

/-- Go `unicode.IsSpace`: the Unicode `White_Space` code points. -/
def goIsSpace (c : Char) : Bool :=
  let n := c.toNat
  (9 ≤ n && n ≤ 13) || n == 32 || n == 133 || n == 160 || n == 0x1680 ||
    (0x2000 ≤ n && n ≤ 0x200A) || n == 0x2028 || n == 0x2029 ||
    n == 0x202F || n == 0x205F || n == 0x3000

/-- Go `strings.TrimSpace`: drop white space from both ends. -/
def goTrimSpace (s : String) : String :=
  String.mk (((s.data.dropWhile goIsSpace).reverse.dropWhile goIsSpace).reverse)

/-! ### The program configuration record (source: `supervisordkratos.go`) -/

/-- A Go `any` value stored in the `AutoRestart` field: the renderer's type
switch recognizes `bool` and `string`; `goOther` stands for a value of any
other dynamic type (the switch's `default:` panic case). -/
inductive GoVal where
  | goBool (b : Bool)
  | goString (s : String)
  | goOther
  deriving DecidableEq

/-- `ProgramConfig`: four required plain strings plus sixteen optional
fields, each wrapped in `Opt`.  The Go `map[string]string` environment is
embedded as its entry list (a Go map is unordered; the order in which one
render call iterates it is passed to the renderer separately). -/
structure ProgramConfig where
  Name : String
  UserName : String
  Root : String
  SlogRoot : String
  Environment : Opt (List (String × String))
  AutoStart : Opt Bool
  AutoRestart : Opt GoVal
  StartRetries : Opt Int
  StartSecs : Opt Int
  LogMaxBytes : Opt String
  LogBackups : Opt Int
  RedirectStderr : Opt Bool
  StopAsGroup : Opt Bool
  StopWaitSecs : Opt Int
  KillAsGroup : Opt Bool
  StopSignal : Opt String
  Priority : Opt Int
  ExitCodes : Opt (List Int)
  NumProcs : Opt Int
  ProcessName : Opt String
  deriving DecidableEq

/-- `NewProgramConfig(name, root, userName, slogRoot)`: the four
`must.Nice` guards panic (`none`) when any required string is blank;
otherwise every optional field starts as an unset `Opt` holding the
supervisord standard default. -/
def NewProgramConfig (name root userName slogRoot : String) : Option ProgramConfig :=
  if name = "" ∨ userName = "" ∨ root = "" ∨ slogRoot = "" then none
  else some {
    Name := name
    UserName := userName
    Root := root
    SlogRoot := slogRoot
    Environment := NewOpt []
    AutoStart := NewOpt true
    AutoRestart := NewOpt (GoVal.goString "unexpected")
    StartRetries := NewOpt 3
    StartSecs := NewOpt 1
    LogMaxBytes := NewOpt "50MB"
    LogBackups := NewOpt 10
    RedirectStderr := NewOpt false
    StopAsGroup := NewOpt false
    StopWaitSecs := NewOpt 10
    KillAsGroup := NewOpt false
    StopSignal := NewOpt "TERM"
    Priority := NewOpt 999
    ExitCodes := NewOpt [0]
    NumProcs := NewOpt 1
    ProcessName := NewOpt "%(program_name)s" }

/-! ### The chained setters -/

/-- `WithAutoStart`. -/
def ProgramConfig.WithAutoStart (p : ProgramConfig) (autoStart : Bool) : ProgramConfig :=
  { p with AutoStart := p.AutoStart.Set autoStart }

/-- `WithAutoRestart` (the `bool` setter). -/
def ProgramConfig.WithAutoRestart (p : ProgramConfig) (autoRestart : Bool) : ProgramConfig :=
  { p with AutoRestart := p.AutoRestart.Set (GoVal.goBool autoRestart) }

/-- `WithAutoRestartMode`: `mustslice.In` panics (`none`) unless the mode is
one of `"false"`, `"true"`, `"unexpected"`. -/
def ProgramConfig.WithAutoRestartMode (p : ProgramConfig) (mode : String) : Option ProgramConfig :=
  if mode ∈ ["false", "true", "unexpected"] then
    some { p with AutoRestart := p.AutoRestart.Set (GoVal.goString mode) }
  else none

/-- `WithStartRetries`. -/
def ProgramConfig.WithStartRetries (p : ProgramConfig) (startRetries : Int) : ProgramConfig :=
  { p with StartRetries := p.StartRetries.Set startRetries }

/-- `WithStartSecs`. -/
def ProgramConfig.WithStartSecs (p : ProgramConfig) (startSecs : Int) : ProgramConfig :=
  { p with StartSecs := p.StartSecs.Set startSecs }

/-- `WithLogMaxBytes`. -/
def ProgramConfig.WithLogMaxBytes (p : ProgramConfig) (logMaxBytes : String) : ProgramConfig :=
  { p with LogMaxBytes := p.LogMaxBytes.Set logMaxBytes }

/-- `WithLogBackups`. -/
def ProgramConfig.WithLogBackups (p : ProgramConfig) (logBackups : Int) : ProgramConfig :=
  { p with LogBackups := p.LogBackups.Set logBackups }

/-- `WithRedirectStderr`. -/
def ProgramConfig.WithRedirectStderr (p : ProgramConfig) (redirectStderr : Bool) : ProgramConfig :=
  { p with RedirectStderr := p.RedirectStderr.Set redirectStderr }

/-- `WithStopAsGroup`. -/
def ProgramConfig.WithStopAsGroup (p : ProgramConfig) (stopAsGroup : Bool) : ProgramConfig :=
  { p with StopAsGroup := p.StopAsGroup.Set stopAsGroup }

/-- `WithKillAsGroup`. -/
def ProgramConfig.WithKillAsGroup (p : ProgramConfig) (killAsGroup : Bool) : ProgramConfig :=
  { p with KillAsGroup := p.KillAsGroup.Set killAsGroup }

/-- `WithStopWaitSecs`. -/
def ProgramConfig.WithStopWaitSecs (p : ProgramConfig) (stopWaitSecs : Int) : ProgramConfig :=
  { p with StopWaitSecs := p.StopWaitSecs.Set stopWaitSecs }

/-- `WithStopSignal`. -/
def ProgramConfig.WithStopSignal (p : ProgramConfig) (stopSignal : String) : ProgramConfig :=
  { p with StopSignal := p.StopSignal.Set stopSignal }

/-- `WithPriority`. -/
def ProgramConfig.WithPriority (p : ProgramConfig) (priority : Int) : ProgramConfig :=
  { p with Priority := p.Priority.Set priority }

/-- `WithEnvironment` (stores the map's entries). -/
def ProgramConfig.WithEnvironment (p : ProgramConfig) (environment : List (String × String)) : ProgramConfig :=
  { p with Environment := p.Environment.Set environment }

/-- `WithExitCodes`. -/
def ProgramConfig.WithExitCodes (p : ProgramConfig) (exitCodes : List Int) : ProgramConfig :=
  { p with ExitCodes := p.ExitCodes.Set exitCodes }

/-- `WithNumProcs`. -/
def ProgramConfig.WithNumProcs (p : ProgramConfig) (numProcs : Int) : ProgramConfig :=
  { p with NumProcs := p.NumProcs.Set numProcs }

/-- `WithProcessName`. -/
def ProgramConfig.WithProcessName (p : ProgramConfig) (processName : String) : ProgramConfig :=
  { p with ProcessName := p.ProcessName.Set processName }

/-! ### The single-program renderer (source: `GenerateProgramConfig`) -/

/-- `combineInts`: comma-separated decimal list, `""` when empty. -/
def combineInts (items : List Int) (sep : String) : String :=
  if items.isEmpty then ""
  else goStringsJoin (items.map (fun item => goItoa item)) sep

/-- `combineSsMap`: `key=value` pairs joined with `sep`, `""` when empty.
`items` is the Go map's entry sequence in this call's iteration order. -/
def combineSsMap (items : List (String × String)) (sep : String) : String :=
  if items.isEmpty then ""
  else goStringsJoin (items.map (fun kv => kv.1 ++ "=" ++ kv.2)) sep

/-- The line printed by the `autorestart` type switch: a formatted bool or
the raw string; a value of any other dynamic type hits the switch's
`default: panic(...)`, modeled as `none`. -/
def autorestartLinesOpt : GoVal → Option (List String)
  | GoVal.goBool b => some ["autorestart     = " ++ goFormatBool b]
  | GoVal.goString s => some ["autorestart     = " ++ s]
  | GoVal.goOther => none

/-- The sequence of lines `GenerateProgramConfig` prints (one list element
per `ptx.Println` call), or `none` when it panics: the four `must.Nice`
guards on the required fields, then the fixed-order conditional emission.
`ord` is the iteration order of the environment map in this call. -/
def GenerateProgramConfigLines (ord : List (String × String)) (p : ProgramConfig) :
    Option (List String) :=
  if p.Name = "" ∨ p.Root = "" ∨ p.UserName = "" ∨ p.SlogRoot = "" then none
  else
    match (if p.AutoRestart.IsSet then autorestartLinesOpt p.AutoRestart.Get else some []) with
    | none => none
    | some arLines => some (
        ["[program:" ++ p.Name ++ "]",
         "user            = " ++ p.UserName,
         "directory       = " ++ p.Root,
         "command         = " ++ goFilepathJoin [p.Root, "bin", p.Name]]
        ++ (if p.Environment.IsSet ∧ combineSsMap ord "," ≠ "" then
              ["environment     = " ++ combineSsMap ord ","] else [])
        ++ (if p.AutoStart.IsSet then
              ["autostart       = " ++ goFormatBool p.AutoStart.Get] else [])
        ++ arLines
        ++ (if p.StartRetries.IsSet then
              ["startretries    = " ++ goItoa p.StartRetries.Get] else [])
        ++ (if p.StartSecs.IsSet then
              ["startsecs       = " ++ goItoa p.StartSecs.Get] else [])
        ++ ["stdout_logfile  = " ++ goFilepathJoin [p.SlogRoot, p.Name ++ ".log"]]
        ++ (if p.LogMaxBytes.IsSet then
              ["stdout_logfile_maxbytes = " ++ p.LogMaxBytes.Get] else [])
        ++ (if p.LogBackups.IsSet then
              ["stdout_logfile_backups = " ++ goItoa p.LogBackups.Get] else [])
        ++ ["stderr_logfile  = " ++ goFilepathJoin [p.SlogRoot, p.Name ++ ".err"]]
        ++ (if p.LogMaxBytes.IsSet then
              ["stderr_logfile_maxbytes = " ++ p.LogMaxBytes.Get] else [])
        ++ (if p.LogBackups.IsSet then
              ["stderr_logfile_backups = " ++ goItoa p.LogBackups.Get] else [])
        ++ (if p.RedirectStderr.IsSet then
              ["redirect_stderr = " ++ goFormatBool p.RedirectStderr.Get] else [])
        ++ (if p.StopAsGroup.IsSet then
              ["stopasgroup     = " ++ goFormatBool p.StopAsGroup.Get] else [])
        ++ (if p.StopWaitSecs.IsSet then
              ["stopwaitsecs    = " ++ goItoa p.StopWaitSecs.Get] else [])
        ++ (if p.KillAsGroup.IsSet then
              ["killasgroup     = " ++ goFormatBool p.KillAsGroup.Get] else [])
        ++ (if p.StopSignal.IsSet then
              ["stopsignal      = " ++ p.StopSignal.Get] else [])
        ++ (if p.Priority.IsSet then
              ["priority        = " ++ goItoa p.Priority.Get] else [])
        ++ (if p.ExitCodes.IsSet then
              ["exitcodes       = " ++ combineInts p.ExitCodes.Get ","] else [])
        ++ (if p.NumProcs.IsSet then
              ["numprocs        = " ++ goItoa p.NumProcs.Get] else [])
        ++ (if p.ProcessName.IsSet then
              ["process_name    = " ++ p.ProcessName.Get] else []))

/-- The text a sequence of `ptx.Println` calls leaves in the buffer: every
line followed by one line terminator. -/
def linesToText (ls : List String) : String :=
  String.join (ls.map (fun l => l ++ "\n"))

/-- `GenerateProgramConfig`: the rendered text (`ptx.String()`), or `none`
when the function panics. -/
def GenerateProgramConfig (ord : List (String × String)) (p : ProgramConfig) :
    Option String :=
  (GenerateProgramConfigLines ord p).map linesToText

/-! ### The group configuration and renderer (source: the group file) -/

/-- `GroupConfig`: a name and the insertion-ordered program list. -/
structure GroupConfig where
  Name : String
  Programs : List ProgramConfig
  deriving DecidableEq

/-- `NewGroupConfig`: `must.Nice` rejects a blank name; starts empty. -/
def NewGroupConfig (name : String) : Option GroupConfig :=
  if name = "" then none else some ⟨name, []⟩

/-- `AddProgram`: append one program, keeping insertion order. -/
def GroupConfig.AddProgram (g : GroupConfig) (program : ProgramConfig) : GroupConfig :=
  { g with Programs := g.Programs ++ [program] }

/-- Sequence a list of possibly-failing renders: `none` as soon as any
element is `none` (the Go loop panics at the first failing program and the
whole function then returns nothing). -/
def optionAll {α : Type} : List (Option α) → Option (List α)
  | [] => some []
  | none :: _ => none
  | some x :: rest => (optionAll rest).map (fun xs => x :: xs)

/-- `GenerateGroupConfig`: `must.Nice(Name)` and `must.Have(Programs)`
guards, the `[group:...]` header, the comma-joined `programs=` line, one
`ptx.Println()` blank line, then per program one blank line followed by the
trimmed single-program rendering.  `ordf p` is the environment iteration
order used by the render call for member `p`. -/
def GenerateGroupConfig (ordf : ProgramConfig → List (String × String))
    (g : GroupConfig) : Option String :=
  if g.Name = "" then none
  else if g.Programs.isEmpty then none
  else
    match optionAll (g.Programs.map (fun p => GenerateProgramConfig (ordf p) p)) with
    | none => none
    | some texts => some (
        "[group:" ++ g.Name ++ "]\n" ++
        "programs=" ++ goStringsJoin (g.Programs.map (fun p => p.Name)) "," ++ "\n" ++
        "\n" ++
        String.join (texts.map (fun cfs => "\n" ++ goTrimSpace cfs ++ "\n")))

/-! ### Setter call sequences

A builder-style use of the package is: construct with `NewProgramConfig`,
then apply any sequence of the chained setters.  `SetterOp` is one such
call with its argument. -/

/-- One chained-setter call on a `ProgramConfig`. -/
inductive SetterOp where
  | autoStart (b : Bool)
  | autoRestart (b : Bool)
  | autoRestartMode (m : String)
  | startRetries (n : Int)
  | startSecs (n : Int)
  | logMaxBytes (s : String)
  | logBackups (n : Int)
  | redirectStderr (b : Bool)
  | stopAsGroup (b : Bool)
  | killAsGroup (b : Bool)
  | stopWaitSecs (n : Int)
  | stopSignal (s : String)
  | priority (n : Int)
  | environment (e : List (String × String))
  | exitCodes (l : List Int)
  | numProcs (n : Int)
  | processName (s : String)
  deriving DecidableEq

/-- Apply one setter call (`none` when the call panics, which only
`WithAutoRestartMode` can). -/
def applySetterOp (p : ProgramConfig) : SetterOp → Option ProgramConfig
  | SetterOp.autoStart b => some (p.WithAutoStart b)
  | SetterOp.autoRestart b => some (p.WithAutoRestart b)
  | SetterOp.autoRestartMode m => p.WithAutoRestartMode m
  | SetterOp.startRetries n => some (p.WithStartRetries n)
  | SetterOp.startSecs n => some (p.WithStartSecs n)
  | SetterOp.logMaxBytes s => some (p.WithLogMaxBytes s)
  | SetterOp.logBackups n => some (p.WithLogBackups n)
  | SetterOp.redirectStderr b => some (p.WithRedirectStderr b)
  | SetterOp.stopAsGroup b => some (p.WithStopAsGroup b)
  | SetterOp.killAsGroup b => some (p.WithKillAsGroup b)
  | SetterOp.stopWaitSecs n => some (p.WithStopWaitSecs n)
  | SetterOp.stopSignal s => some (p.WithStopSignal s)
  | SetterOp.priority n => some (p.WithPriority n)
  | SetterOp.environment e => some (p.WithEnvironment e)
  | SetterOp.exitCodes l => some (p.WithExitCodes l)
  | SetterOp.numProcs n => some (p.WithNumProcs n)
  | SetterOp.processName s => some (p.WithProcessName s)

/-- Apply a sequence of setter calls, oldest first. -/
def applySetterOps (p : ProgramConfig) : List SetterOp → Option ProgramConfig
  | [] => some p
  | op :: rest => (applySetterOp p op).bind (fun q => applySetterOps q rest)

/-- Construct with `NewProgramConfig`, then apply a sequence of setter
calls: the general shape of any fluent use of the builder. -/
def buildProgram (name root userName slogRoot : String) (ops : List SetterOp) :
    Option ProgramConfig :=
  (NewProgramConfig name root userName slogRoot).bind (fun q => applySetterOps q ops)

/-- The sixteen optional fields of a `ProgramConfig`. -/
inductive OptField where
  | environment | autoStart | autoRestart | startRetries | startSecs
  | logMaxBytes | logBackups | redirectStderr | stopAsGroup | stopWaitSecs
  | killAsGroup | stopSignal | priority | exitCodes | numProcs | processName
  deriving DecidableEq

/-- The `isSet` flag of one optional field. -/
def optFlag (p : ProgramConfig) : OptField → Bool
  | OptField.environment => p.Environment.IsSet
  | OptField.autoStart => p.AutoStart.IsSet
  | OptField.autoRestart => p.AutoRestart.IsSet
  | OptField.startRetries => p.StartRetries.IsSet
  | OptField.startSecs => p.StartSecs.IsSet
  | OptField.logMaxBytes => p.LogMaxBytes.IsSet
  | OptField.logBackups => p.LogBackups.IsSet
  | OptField.redirectStderr => p.RedirectStderr.IsSet
  | OptField.stopAsGroup => p.StopAsGroup.IsSet
  | OptField.stopWaitSecs => p.StopWaitSecs.IsSet
  | OptField.killAsGroup => p.KillAsGroup.IsSet
  | OptField.stopSignal => p.StopSignal.IsSet
  | OptField.priority => p.Priority.IsSet
  | OptField.exitCodes => p.ExitCodes.IsSet
  | OptField.numProcs => p.NumProcs.IsSet
  | OptField.processName => p.ProcessName.IsSet

/-- The optional field a setter call assigns (the two auto-restart setters
share one field). -/
def setterField : SetterOp → OptField
  | SetterOp.autoStart _ => OptField.autoStart
  | SetterOp.autoRestart _ => OptField.autoRestart
  | SetterOp.autoRestartMode _ => OptField.autoRestart
  | SetterOp.startRetries _ => OptField.startRetries
  | SetterOp.startSecs _ => OptField.startSecs
  | SetterOp.logMaxBytes _ => OptField.logMaxBytes
  | SetterOp.logBackups _ => OptField.logBackups
  | SetterOp.redirectStderr _ => OptField.redirectStderr
  | SetterOp.stopAsGroup _ => OptField.stopAsGroup
  | SetterOp.killAsGroup _ => OptField.killAsGroup
  | SetterOp.stopWaitSecs _ => OptField.stopWaitSecs
  | SetterOp.stopSignal _ => OptField.stopSignal
  | SetterOp.priority _ => OptField.priority
  | SetterOp.environment _ => OptField.environment
  | SetterOp.exitCodes _ => OptField.exitCodes
  | SetterOp.numProcs _ => OptField.numProcs
  | SetterOp.processName _ => OptField.processName

/-- The `GoVal` a setter call stores into the auto-restart field, when it
touches that field. -/
def arSetterValue : SetterOp → Option GoVal
  | SetterOp.autoRestart b => some (GoVal.goBool b)
  | SetterOp.autoRestartMode m => some (GoVal.goString m)
  | _ => none

/-- The auto-restart value stored by the last auto-restart setter of a call
sequence, if any. -/
def lastARValue : List SetterOp → Option GoVal
  | [] => none
  | op :: rest =>
    match lastARValue rest with
    | some v => some v
    | none => arSetterValue op

/-- The dynamic types the autorestart type switch accepts (every value the
typed setters can store). -/
def arValueOk : GoVal → Bool
  | GoVal.goBool _ => true
  | GoVal.goString _ => true
  | GoVal.goOther => false

/-- The required fields are non-blank (the renderer's `must.Nice` guards
pass). -/
def RequiredOk (p : ProgramConfig) : Prop :=
  p.Name ≠ "" ∧ p.Root ≠ "" ∧ p.UserName ≠ "" ∧ p.SlogRoot ≠ ""

instance (p : ProgramConfig) : Decidable (RequiredOk p) := by
  unfold RequiredOk; infer_instance

/-! ### Spec-side rendering (written from the spec, for refinement claims)

`specRenderLines` transcribes spec section 4.3's enumerated list: twenty-four
line slots in a fixed order, the always-emitted slots, the `isSet`-guarded
slots, and the environment slot which additionally needs a non-empty joined
string.  It is compared with `GenerateProgramConfigLines`, which was
translated from the Go source. -/

/-- Spec section 4.3 item 7: the autorestart value is "either the boolean's
literal or the raw mode string" (the spec gives no value for any other
representation; `goOther` is outside its domain and rendered as `""`). -/
def specAutorestartValue : GoVal → String
  | GoVal.goBool b => goFormatBool b
  | GoVal.goString s => s
  | GoVal.goOther => ""

/-- Spec section 4.3: the fixed-order conditional line list of the
single-program renderer, transcribed from the spec's enumerated items 1-24. -/
def specRenderLines (ord : List (String × String)) (p : ProgramConfig) : List String :=
  ["[program:" ++ p.Name ++ "]"]
  ++ ["user            = " ++ p.UserName]
  ++ ["directory       = " ++ p.Root]
  ++ ["command         = " ++ goFilepathJoin [p.Root, "bin", p.Name]]
  ++ (if p.Environment.IsSet ∧ combineSsMap ord "," ≠ "" then
        ["environment     = " ++ combineSsMap ord ","] else [])
  ++ (if p.AutoStart.IsSet then
        ["autostart       = " ++ goFormatBool p.AutoStart.Get] else [])
  ++ (if p.AutoRestart.IsSet then
        ["autorestart     = " ++ specAutorestartValue p.AutoRestart.Get] else [])
  ++ (if p.StartRetries.IsSet then
        ["startretries    = " ++ goItoa p.StartRetries.Get] else [])
  ++ (if p.StartSecs.IsSet then
        ["startsecs       = " ++ goItoa p.StartSecs.Get] else [])
  ++ ["stdout_logfile  = " ++ goFilepathJoin [p.SlogRoot, p.Name ++ ".log"]]
  ++ (if p.LogMaxBytes.IsSet then
        ["stdout_logfile_maxbytes = " ++ p.LogMaxBytes.Get] else [])
  ++ (if p.LogBackups.IsSet then
        ["stdout_logfile_backups = " ++ goItoa p.LogBackups.Get] else [])
  ++ ["stderr_logfile  = " ++ goFilepathJoin [p.SlogRoot, p.Name ++ ".err"]]
  ++ (if p.LogMaxBytes.IsSet then
        ["stderr_logfile_maxbytes = " ++ p.LogMaxBytes.Get] else [])
  ++ (if p.LogBackups.IsSet then
        ["stderr_logfile_backups = " ++ goItoa p.LogBackups.Get] else [])
  ++ (if p.RedirectStderr.IsSet then
        ["redirect_stderr = " ++ goFormatBool p.RedirectStderr.Get] else [])
  ++ (if p.StopAsGroup.IsSet then
        ["stopasgroup     = " ++ goFormatBool p.StopAsGroup.Get] else [])
  ++ (if p.StopWaitSecs.IsSet then
        ["stopwaitsecs    = " ++ goItoa p.StopWaitSecs.Get] else [])
  ++ (if p.KillAsGroup.IsSet then
        ["killasgroup     = " ++ goFormatBool p.KillAsGroup.Get] else [])
  ++ (if p.StopSignal.IsSet then
        ["stopsignal      = " ++ p.StopSignal.Get] else [])
  ++ (if p.Priority.IsSet then
        ["priority        = " ++ goItoa p.Priority.Get] else [])
  ++ (if p.ExitCodes.IsSet then
        ["exitcodes       = " ++ combineInts p.ExitCodes.Get ","] else [])
  ++ (if p.NumProcs.IsSet then
        ["numprocs        = " ++ goItoa p.NumProcs.Get] else [])
  ++ (if p.ProcessName.IsSet then
        ["process_name    = " ++ p.ProcessName.Get] else [])

/-- Spec section 4.4 / claim C3's enumerated group structure as the claim
states it: header, `programs=` line, one blank line, one ADDITIONAL blank
line, then per program one blank line plus the trimmed program rendering
(so three blank lines precede the first program block). -/
def claimGroupText (ordf : ProgramConfig → List (String × String))
    (g : GroupConfig) : String :=
  "[group:" ++ g.Name ++ "]\n" ++
  "programs=" ++ goStringsJoin (g.Programs.map (fun p => p.Name)) "," ++ "\n" ++
  "\n" ++
  "\n" ++
  String.join (g.Programs.map (fun p =>
    "\n" ++ goTrimSpace ((GenerateProgramConfig (ordf p) p).getD "") ++ "\n"))

/-- The group structure the code actually produces (claim C3 amended): as
`claimGroupText` but with a single blank line after the `programs=` line,
so each program block — the first included — is preceded by exactly one
blank-line print beyond the section spacing (two blank lines in total
before the first block). -/
def specGroupText (ordf : ProgramConfig → List (String × String))
    (g : GroupConfig) : String :=
  "[group:" ++ g.Name ++ "]\n" ++
  "programs=" ++ goStringsJoin (g.Programs.map (fun p => p.Name)) "," ++ "\n" ++
  "\n" ++
  String.join (g.Programs.map (fun p =>
    "\n" ++ goTrimSpace ((GenerateProgramConfig (ordf p) p).getD "") ++ "\n"))

/-! ### Concrete sample values used to instantiate the theorems -/

/-- The record `NewProgramConfig "myapp" "/opt/myapp" "deploy"
"/var/log/myapp"` returns (spelled out for concrete instantiations). -/
def samplePC : ProgramConfig := {
  Name := "myapp"
  UserName := "deploy"
  Root := "/opt/myapp"
  SlogRoot := "/var/log/myapp"
  Environment := NewOpt []
  AutoStart := NewOpt true
  AutoRestart := NewOpt (GoVal.goString "unexpected")
  StartRetries := NewOpt 3
  StartSecs := NewOpt 1
  LogMaxBytes := NewOpt "50MB"
  LogBackups := NewOpt 10
  RedirectStderr := NewOpt false
  StopAsGroup := NewOpt false
  StopWaitSecs := NewOpt 10
  KillAsGroup := NewOpt false
  StopSignal := NewOpt "TERM"
  Priority := NewOpt 999
  ExitCodes := NewOpt [0]
  NumProcs := NewOpt 1
  ProcessName := NewOpt "%(program_name)s" }

/-! ### Helper lemmas: what one setter call does to the record -/

/-- A setter call never changes the four required fields. -/
theorem applySetterOp_req {p q : ProgramConfig} {op : SetterOp}
    (h : applySetterOp p op = some q) :
    q.Name = p.Name ∧ q.Root = p.Root ∧ q.UserName = p.UserName ∧
      q.SlogRoot = p.SlogRoot := by
  cases op
  case autoRestartMode m =>
    simp only [applySetterOp, ProgramConfig.WithAutoRestartMode] at h
    split at h
    · obtain rfl := Option.some.inj h
      exact ⟨rfl, rfl, rfl, rfl⟩
    · exact Option.noConfusion h
  all_goals
    obtain rfl := Option.some.inj h
    exact ⟨rfl, rfl, rfl, rfl⟩

/-- A setter call sets exactly its own field's flag and leaves every other
flag unchanged. -/
theorem applySetterOp_flag {p q : ProgramConfig} {op : SetterOp}
    (h : applySetterOp p op = some q) (f : OptField) :
    optFlag q f = (optFlag p f || decide (setterField op = f)) := by
  cases op
  case autoRestartMode m =>
    simp only [applySetterOp, ProgramConfig.WithAutoRestartMode] at h
    split at h
    · obtain rfl := Option.some.inj h
      cases f <;>
        simp [optFlag, setterField, Opt.Set, Opt.IsSet]
    · exact Option.noConfusion h
  all_goals
    obtain rfl := Option.some.inj h
    cases f <;>
      simp [optFlag, setterField, Opt.Set, Opt.IsSet,
        ProgramConfig.WithAutoStart, ProgramConfig.WithAutoRestart,
        ProgramConfig.WithStartRetries, ProgramConfig.WithStartSecs,
        ProgramConfig.WithLogMaxBytes, ProgramConfig.WithLogBackups,
        ProgramConfig.WithRedirectStderr, ProgramConfig.WithStopAsGroup,
        ProgramConfig.WithKillAsGroup, ProgramConfig.WithStopWaitSecs,
        ProgramConfig.WithStopSignal, ProgramConfig.WithPriority,
        ProgramConfig.WithEnvironment, ProgramConfig.WithExitCodes,
        ProgramConfig.WithNumProcs, ProgramConfig.WithProcessName]

/-- What one setter call does to the auto-restart cell: the two
auto-restart setters overwrite value and flag, everything else leaves the
cell alone. -/
theorem applySetterOp_ar {p q : ProgramConfig} {op : SetterOp}
    (h : applySetterOp p op = some q) :
    q.AutoRestart.Value = (arSetterValue op).getD p.AutoRestart.Value ∧
      q.AutoRestart.isSet = (p.AutoRestart.isSet || (arSetterValue op).isSome) := by
  cases op
  case autoRestartMode m =>
    simp only [applySetterOp, ProgramConfig.WithAutoRestartMode] at h
    split at h
    · obtain rfl := Option.some.inj h
      simp [arSetterValue, Opt.Set]
    · exact Option.noConfusion h
  all_goals
    obtain rfl := Option.some.inj h
    simp [arSetterValue, Opt.Set,
      ProgramConfig.WithAutoStart, ProgramConfig.WithAutoRestart,
      ProgramConfig.WithStartRetries, ProgramConfig.WithStartSecs,
      ProgramConfig.WithLogMaxBytes, ProgramConfig.WithLogBackups,
      ProgramConfig.WithRedirectStderr, ProgramConfig.WithStopAsGroup,
      ProgramConfig.WithKillAsGroup, ProgramConfig.WithStopWaitSecs,
      ProgramConfig.WithStopSignal, ProgramConfig.WithPriority,
      ProgramConfig.WithEnvironment, ProgramConfig.WithExitCodes,
      ProgramConfig.WithNumProcs, ProgramConfig.WithProcessName]

/-! ### Helper lemmas: whole setter sequences -/

/-- A setter sequence never changes the four required fields. -/
theorem applySetterOps_req {ops : List SetterOp} : ∀ {p q : ProgramConfig},
    applySetterOps p ops = some q →
    q.Name = p.Name ∧ q.Root = p.Root ∧ q.UserName = p.UserName ∧
      q.SlogRoot = p.SlogRoot := by
  induction ops with
  | nil => intro p q h; obtain rfl := Option.some.inj h; exact ⟨rfl, rfl, rfl, rfl⟩
  | cons op rest ih =>
    intro p q h
    simp only [applySetterOps] at h
    cases hop : applySetterOp p op with
    | none => rw [hop] at h; exact Option.noConfusion h
    | some p1 =>
      rw [hop] at h
      simp only [Option.some_bind] at h
      obtain ⟨e1, e2, e3, e4⟩ := ih h
      obtain ⟨d1, d2, d3, d4⟩ := applySetterOp_req hop
      exact ⟨e1.trans d1, e2.trans d2, e3.trans d3, e4.trans d4⟩

/-- After a setter sequence, a field's flag is up iff it was up before or
some call in the sequence targets that field. -/
theorem applySetterOps_flag {ops : List SetterOp} : ∀ {p q : ProgramConfig},
    applySetterOps p ops = some q → ∀ f : OptField,
    optFlag q f = (optFlag p f || ops.any (fun op => decide (setterField op = f))) := by
  induction ops with
  | nil => intro p q h f; obtain rfl := Option.some.inj h; simp
  | cons op rest ih =>
    intro p q h f
    simp only [applySetterOps] at h
    cases hop : applySetterOp p op with
    | none => rw [hop] at h; exact Option.noConfusion h
    | some p1 =>
      rw [hop] at h
      simp only [Option.some_bind] at h
      rw [ih h f, applySetterOp_flag hop f, List.any_cons]
      cases optFlag p f <;> cases decide (setterField op = f) <;> simp

/-- After a setter sequence, the auto-restart cell holds the value stored
by the last auto-restart call, or its old content when there was none; its
flag is up iff it was up before or some auto-restart call occurred. -/
theorem applySetterOps_ar {ops : List SetterOp} : ∀ {p q : ProgramConfig},
    applySetterOps p ops = some q →
    q.AutoRestart.Value = (lastARValue ops).getD p.AutoRestart.Value ∧
      q.AutoRestart.isSet = (p.AutoRestart.isSet || (lastARValue ops).isSome) := by
  induction ops with
  | nil => intro p q h; obtain rfl := Option.some.inj h; simp [lastARValue]
  | cons op rest ih =>
    intro p q h
    simp only [applySetterOps] at h
    cases hop : applySetterOp p op with
    | none => rw [hop] at h; exact Option.noConfusion h
    | some p1 =>
      rw [hop] at h
      simp only [Option.some_bind] at h
      obtain ⟨e1, e2⟩ := ih h
      obtain ⟨d1, d2⟩ := applySetterOp_ar hop
      constructor
      · rw [e1, d1]
        simp only [lastARValue]
        cases lastARValue rest <;> cases har : arSetterValue op <;> simp [har]
      · rw [e2, d2]
        simp only [lastARValue]
        cases lastARValue rest <;> cases har : arSetterValue op <;> simp [har]

/-! ### Helper lemmas: the renderer -/

/-- The renderer on a configuration whose required fields are non-blank and
whose auto-restart value is one the type switch accepts: no panic, and the
emitted line sequence is exactly spec section 4.3's fixed-order list. -/
theorem renderLines_eq_spec (ord : List (String × String)) (p : ProgramConfig)
    (hreq : RequiredOk p) (har : arValueOk p.AutoRestart.Value = true) :
    GenerateProgramConfigLines ord p = some (specRenderLines ord p) := by
  obtain ⟨h1, h2, h3, h4⟩ := hreq
  unfold GenerateProgramConfigLines specRenderLines
  rw [if_neg (by simp [h1, h2, h3, h4])]
  by_cases hs : p.AutoRestart.IsSet
  · cases hv : p.AutoRestart.Value with
    | goBool b =>
      simp [hs, Opt.Get, hv, autorestartLinesOpt, specAutorestartValue]
    | goString s =>
      simp [hs, Opt.Get, hv, autorestartLinesOpt, specAutorestartValue]
    | goOther => rw [hv] at har; exact Bool.noConfusion har
  · simp [hs]

/-- `buildProgram` succeeds exactly when the four required strings are
non-blank and every `WithAutoRestartMode` call in the sequence carries one
of the three accepted mode strings; on success the required fields hold the
constructor arguments. -/
theorem buildProgram_req {name root userName slogRoot : String}
    {ops : List SetterOp} {p : ProgramConfig}
    (h : buildProgram name root userName slogRoot ops = some p) :
    p.Name = name ∧ p.Root = root ∧ p.UserName = userName ∧
      p.SlogRoot = slogRoot ∧ RequiredOk p := by
  unfold buildProgram NewProgramConfig at h
  split at h
  · exact Option.noConfusion h
  · rename_i hguard
    simp only [Option.some_bind] at h
    obtain ⟨e1, e2, e3, e4⟩ := applySetterOps_req h
    push_neg at hguard
    obtain ⟨g1, g2, g3, g4⟩ := hguard
    refine ⟨e1, e2, e3, e4, ?_⟩
    unfold RequiredOk
    rw [e1, e2, e3, e4]
    exact ⟨g1, g3, g2, g4⟩

/-- After `buildProgram`, each optional flag is up iff some call in the
sequence targets that field (all flags start down). -/
theorem buildProgram_flag {name root userName slogRoot : String}
    {ops : List SetterOp} {p : ProgramConfig}
    (h : buildProgram name root userName slogRoot ops = some p) (f : OptField) :
    optFlag p f = ops.any (fun op => decide (setterField op = f)) := by
  unfold buildProgram NewProgramConfig at h
  split at h
  · exact Option.noConfusion h
  · simp only [Option.some_bind] at h
    rw [applySetterOps_flag h f]
    cases f <;> simp [optFlag, Opt.IsSet, NewOpt]

/-- After `buildProgram`, the auto-restart cell holds the value stored by
the last auto-restart call (the constructor default `"unexpected"` when
there was none), and its flag is up iff such a call occurred. -/
theorem buildProgram_ar {name root userName slogRoot : String}
    {ops : List SetterOp} {p : ProgramConfig}
    (h : buildProgram name root userName slogRoot ops = some p) :
    p.AutoRestart.Value = (lastARValue ops).getD (GoVal.goString "unexpected") ∧
      p.AutoRestart.isSet = (lastARValue ops).isSome := by
  unfold buildProgram NewProgramConfig at h
  split at h
  · exact Option.noConfusion h
  · simp only [Option.some_bind] at h
    obtain ⟨e1, e2⟩ := applySetterOps_ar h
    refine ⟨?_, ?_⟩
    · rw [e1]; rfl
    · rw [e2]; simp [NewOpt]

/-- Any value the last auto-restart call stores is of a type the switch
accepts. -/
theorem lastARValue_ok : ∀ (ops : List SetterOp) (v : GoVal),
    lastARValue ops = some v → arValueOk v = true := by
  intro ops
  induction ops with
  | nil => intro v hv; exact Option.noConfusion hv
  | cons op rest ih =>
    intro v hv
    simp only [lastARValue] at hv
    cases h2 : lastARValue rest with
    | some w =>
      rw [h2] at hv
      obtain rfl := Option.some.inj hv
      exact ih w h2
    | none =>
      rw [h2] at hv
      cases op <;> first
        | exact Option.noConfusion hv
        | (obtain rfl := Option.some.inj hv; rfl)

/-- The auto-restart setters only store `bool` or `string` values, so after
any `buildProgram` the stored value is accepted by the type switch. -/
theorem buildProgram_arOk {name root userName slogRoot : String}
    {ops : List SetterOp} {p : ProgramConfig}
    (h : buildProgram name root userName slogRoot ops = some p) :
    arValueOk p.AutoRestart.Value = true := by
  obtain ⟨e1, _⟩ := buildProgram_ar h
  rw [e1]
  cases hl : lastARValue ops with
  | none => simp [arValueOk]
  | some v =>
    simp only [Option.getD_some]
    exact lastARValue_ok ops v hl

/-- When the environment flag is down, the renderer never reads the map, so
the iteration order is irrelevant. -/
theorem renderLines_env_unset (p : ProgramConfig)
    (hset : p.Environment.IsSet = false) (o1 o2 : List (String × String)) :
    GenerateProgramConfigLines o1 p = GenerateProgramConfigLines o2 p := by
  unfold GenerateProgramConfigLines
  simp [hset]

/-- A permutation of a list with at most one element is that list. -/
theorem perm_of_length_le_one {α : Type} {l1 l2 : List α}
    (h : List.Perm l1 l2) (hl : l2.length ≤ 1) : l1 = l2 := by
  cases l2 with
  | nil => exact List.Perm.eq_nil h
  | cons a rest =>
    cases rest with
    | nil => exact List.perm_singleton.mp h
    | cons b rest2 => simp at hl

/-- Sequencing renders that all succeed. -/
theorem optionAll_map_some {α β : Type} (l : List α) (f : α → Option β) (g : α → β)
    (h : ∀ x ∈ l, f x = some (g x)) :
    optionAll (l.map f) = some (l.map g) := by
  induction l with
  | nil => rfl
  | cons a rest ih =>
    have ha : f a = some (g a) := h a (by simp)
    simp only [List.map_cons, optionAll, ha]
    rw [ih (fun x hx => h x (by simp [hx]))]
    rfl

/-- The group renderer on a group whose guards pass and whose members all
render without panic: the output is the header, the `programs=` line, one
blank line, then one blank line plus the trimmed member rendering per
member. -/
theorem groupConfig_eq_spec (ordf : ProgramConfig → List (String × String))
    (g : GroupConfig) (hname : g.Name ≠ "") (hne : g.Programs ≠ [])
    (hmem : ∀ p ∈ g.Programs, RequiredOk p ∧ arValueOk p.AutoRestart.Value = true) :
    GenerateGroupConfig ordf g = some (specGroupText ordf g) := by
  unfold GenerateGroupConfig specGroupText
  rw [if_neg hname, if_neg (by simpa using hne)]
  have hall : ∀ p ∈ g.Programs,
      GenerateProgramConfig (ordf p) p =
        some (linesToText (specRenderLines (ordf p) p)) := by
    intro p hp
    obtain ⟨hreq, har⟩ := hmem p hp
    unfold GenerateProgramConfig
    rw [renderLines_eq_spec (ordf p) p hreq har]
    rfl
  rw [optionAll_map_some g.Programs _ (fun p => linesToText (specRenderLines (ordf p) p)) hall]
  simp only [Option.some.injEq]
  rw [List.map_map]
  have hjoin :
      List.map ((fun cfs => "\n" ++ goTrimSpace cfs ++ "\n") ∘
          fun p => linesToText (specRenderLines (ordf p) p)) g.Programs =
        List.map (fun p =>
          "\n" ++ goTrimSpace ((GenerateProgramConfig (ordf p) p).getD "") ++ "\n")
          g.Programs := by
    apply List.map_congr_left
    intro p hp
    simp only [Function.comp_apply, hall p hp, Option.getD_some]
  rw [hjoin]

/-! ### Claim theorems -/

/-- C5: an `Opt` cell starts unset after construction with a default;
`Set` makes `isSet` true permanently across any further operations (the
only mutating operation is `Set`, which keeps it true); and `Get` returns
the most recently stored value — the default when `Set` never ran,
otherwise the argument of the last `Set` — independent of the flag. -/
theorem claim5_opt_invariants (T : Type) (d : T) (o : Opt T) (ops : List (OptOp T)) :
    (NewOpt d).IsSet = false ∧
    (NewOpt d).Get = d ∧
    (applyOptOps o ops).IsSet = (o.IsSet || !ops.isEmpty) ∧
    (applyOptOps o ops).Get = lastSetValue o.Get ops := by
  refine ⟨rfl, rfl, ?_, ?_⟩
  · induction ops generalizing o with
    | nil => simp [applyOptOps]
    | cons op rest ih =>
      cases op with
      | set v =>
        rw [applyOptOps, ih (o.Set v)]
        simp [Opt.Set, Opt.IsSet]
  · induction ops generalizing o with
    | nil => rfl
    | cons op rest ih =>
      cases op with
      | set v =>
        rw [applyOptOps, ih (o.Set v)]
        rfl

/-- C6: the constructor fails exactly on a blank required string; with all
four non-blank it succeeds and stores them. -/
theorem claim6_constructor_validation (name root userName slogRoot : String) :
    ((name = "" ∨ root = "" ∨ userName = "" ∨ slogRoot = "") →
      NewProgramConfig name root userName slogRoot = none) ∧
    (name ≠ "" → root ≠ "" → userName ≠ "" → slogRoot ≠ "" →
      ∃ p, NewProgramConfig name root userName slogRoot = some p ∧
        p.Name = name ∧ p.Root = root ∧ p.UserName = userName ∧
        p.SlogRoot = slogRoot) := by
  constructor
  · intro hb
    unfold NewProgramConfig
    rw [if_pos (by tauto)]
  · intro h1 h2 h3 h4
    unfold NewProgramConfig
    rw [if_neg (by tauto)]
    exact ⟨_, rfl, rfl, rfl, rfl, rfl⟩

/-- C6 witness: a blank name is rejected; four non-blank strings are
accepted and stored. -/
theorem claim6_constructor_validation_witness :
    NewProgramConfig "" "/opt/a" "deploy" "/var/log/a" = none ∧
    ∃ p, NewProgramConfig "aaa" "/opt/a" "deploy" "/var/log/a" = some p ∧
      p.Name = "aaa" ∧ p.Root = "/opt/a" ∧ p.UserName = "deploy" ∧
      p.SlogRoot = "/var/log/a" :=
  ⟨(claim6_constructor_validation "" "/opt/a" "deploy" "/var/log/a").1 (by decide),
   (claim6_constructor_validation "aaa" "/opt/a" "deploy" "/var/log/a").2
     (by decide) (by decide) (by decide) (by decide)⟩

/-- C7: `WithAutoRestartMode` fails exactly on a string outside
`"false"/"true"/"unexpected"`; on an accepted mode it stores the raw string,
marks the field set and returns the configuration otherwise unchanged; and
no other setter can fail. -/
theorem claim7_autorestart_mode_validation (p : ProgramConfig) (mode : String) :
    (mode ∉ (["false", "true", "unexpected"] : List String) →
      p.WithAutoRestartMode mode = none) ∧
    (mode ∈ (["false", "true", "unexpected"] : List String) →
      p.WithAutoRestartMode mode =
        some { p with AutoRestart := ⟨GoVal.goString mode, true⟩ }) ∧
    (∀ op : SetterOp, (∀ m, op ≠ SetterOp.autoRestartMode m) →
      (applySetterOp p op).isSome = true) := by
  refine ⟨?_, ?_, ?_⟩
  · intro hm
    unfold ProgramConfig.WithAutoRestartMode
    rw [if_neg hm]
  · intro hm
    unfold ProgramConfig.WithAutoRestartMode
    rw [if_pos hm]
    rfl
  · intro op hop
    cases op
    case autoRestartMode m => exact absurd rfl (hop m)
    all_goals rfl

/-- C7 witness: `"always"` is rejected, `"unexpected"` is stored with the
flag up, and a non-auto-restart setter call always succeeds. -/
theorem claim7_autorestart_mode_validation_witness :
    samplePC.WithAutoRestartMode "always" = none ∧
    samplePC.WithAutoRestartMode "unexpected" =
      some { samplePC with AutoRestart := ⟨GoVal.goString "unexpected", true⟩ } ∧
    (applySetterOp samplePC (SetterOp.startRetries 7)).isSome = true :=
  ⟨(claim7_autorestart_mode_validation samplePC "always").1 (by decide),
   (claim7_autorestart_mode_validation samplePC "unexpected").2.1 (by decide),
   (claim7_autorestart_mode_validation samplePC "unexpected").2.2
     (SetterOp.startRetries 7) (fun m h => SetterOp.noConfusion h)⟩

/-- C1 counterexample: build from non-blank required fields calling exactly
one setter, `WithEnvironment` with the empty map.  The environment flag is
up, yet the rendered line sequence is identical to the zero-setter
rendering — six lines, none of which starts with `environment` — refuting
"calling an optional field's setter causes exactly that field's
corresponding line(s) to appear". -/
theorem claim1_counterexample :
    buildProgram "myapp" "/opt/myapp" "deploy" "/var/log/myapp"
        [SetterOp.environment []] = some (samplePC.WithEnvironment []) ∧
    (samplePC.WithEnvironment []).Environment.IsSet = true ∧
    GenerateProgramConfigLines [] (samplePC.WithEnvironment []) =
      GenerateProgramConfigLines [] samplePC ∧
    GenerateProgramConfigLines [] (samplePC.WithEnvironment []) = some
      ["[program:myapp]",
       "user            = deploy",
       "directory       = /opt/myapp",
       "command         = /opt/myapp/bin/myapp",
       "stdout_logfile  = /var/log/myapp/myapp.log",
       "stderr_logfile  = /var/log/myapp/myapp.err"] ∧
    (["[program:myapp]",
      "user            = deploy",
      "directory       = /opt/myapp",
      "command         = /opt/myapp/bin/myapp",
      "stdout_logfile  = /var/log/myapp/myapp.log",
      "stderr_logfile  = /var/log/myapp/myapp.err"].all
        (fun l => !(strStarts "environment" l))) = true := by
  refine ⟨by decide, by decide, by decide, by decide, by decide⟩

/-- C1 (amended): for every configuration built from non-blank required
fields by any sequence of setter calls, and any environment iteration
order, the render succeeds and equals spec section 4.3's fixed-order
conditional line list (`specRenderLines`) — so a set field's line(s) appear
in the fixed order, an unset field's line never appears, and no line is
reordered; the amendment is that the environment line needs, beyond its
setter having been called, a non-empty joined mapping text.  Each field's
flag is up exactly when some call in the sequence targets that field. -/
theorem claim1_setter_line_emission (name root userName slogRoot : String)
    (ops : List SetterOp) (ord : List (String × String))
    (h : (buildProgram name root userName slogRoot ops).isSome = true) :
    ∃ p, buildProgram name root userName slogRoot ops = some p ∧
      GenerateProgramConfigLines ord p = some (specRenderLines ord p) ∧
      (∀ f : OptField, optFlag p f =
        ops.any (fun op => decide (setterField op = f))) := by
  cases hb : buildProgram name root userName slogRoot ops with
  | none => rw [hb] at h; exact Bool.noConfusion h
  | some p =>
    refine ⟨p, rfl, ?_, ?_⟩
    · obtain ⟨-, -, -, -, hreq⟩ := buildProgram_req hb
      exact renderLines_eq_spec ord p hreq (buildProgram_arOk hb)
    · exact buildProgram_flag hb

/-- C1 witness: one setter call (`WithStartRetries 10`) on a valid
construction. -/
theorem claim1_setter_line_emission_witness :
    ∃ p, buildProgram "myapp" "/opt/myapp" "deploy" "/var/log/myapp"
        [SetterOp.startRetries 10] = some p ∧
      GenerateProgramConfigLines [] p = some (specRenderLines [] p) ∧
      (∀ f : OptField, optFlag p f =
        [SetterOp.startRetries 10].any (fun op => decide (setterField op = f))) :=
  claim1_setter_line_emission "myapp" "/opt/myapp" "deploy" "/var/log/myapp"
    [SetterOp.startRetries 10] [] (by decide)

/-- C2: a configuration fresh out of the constructor renders to exactly six
lines — header, user, directory, command, stdout_logfile, stderr_logfile —
while every optional field still holds its non-trivial default with its
flag down. -/
theorem claim2_zero_config_render (name root userName slogRoot : String)
    (ord : List (String × String))
    (h : (NewProgramConfig name root userName slogRoot).isSome = true) :
    ∃ p, NewProgramConfig name root userName slogRoot = some p ∧
      GenerateProgramConfigLines ord p = some
        ["[program:" ++ name ++ "]",
         "user            = " ++ userName,
         "directory       = " ++ root,
         "command         = " ++ goFilepathJoin [root, "bin", name],
         "stdout_logfile  = " ++ goFilepathJoin [slogRoot, name ++ ".log"],
         "stderr_logfile  = " ++ goFilepathJoin [slogRoot, name ++ ".err"]] ∧
      GenerateProgramConfig ord p = some (linesToText
        ["[program:" ++ name ++ "]",
         "user            = " ++ userName,
         "directory       = " ++ root,
         "command         = " ++ goFilepathJoin [root, "bin", name],
         "stdout_logfile  = " ++ goFilepathJoin [slogRoot, name ++ ".log"],
         "stderr_logfile  = " ++ goFilepathJoin [slogRoot, name ++ ".err"]]) ∧
      p.Environment = NewOpt [] ∧ p.AutoStart = NewOpt true ∧
      p.AutoRestart = NewOpt (GoVal.goString "unexpected") ∧
      p.StartRetries = NewOpt 3 ∧ p.StartSecs = NewOpt 1 ∧
      p.LogMaxBytes = NewOpt "50MB" ∧ p.LogBackups = NewOpt 10 ∧
      p.RedirectStderr = NewOpt false ∧ p.StopAsGroup = NewOpt false ∧
      p.StopWaitSecs = NewOpt 10 ∧ p.KillAsGroup = NewOpt false ∧
      p.StopSignal = NewOpt "TERM" ∧ p.Priority = NewOpt 999 ∧
      p.ExitCodes = NewOpt [0] ∧ p.NumProcs = NewOpt 1 ∧
      p.ProcessName = NewOpt "%(program_name)s" := by
  unfold NewProgramConfig at h ⊢
  split at h
  · exact Bool.noConfusion h
  · rename_i hguard
    push_neg at hguard
    obtain ⟨g1, g2, g3, g4⟩ := hguard
    rw [if_neg (by tauto)]
    refine ⟨_, rfl, ?_, ?_, rfl, rfl, rfl, rfl, rfl, rfl, rfl, rfl, rfl,
      rfl, rfl, rfl, rfl, rfl, rfl, rfl⟩
    · unfold GenerateProgramConfigLines
      rw [if_neg (by simp [g1, g2, g3, g4])]
      simp [Opt.IsSet, NewOpt]
    · unfold GenerateProgramConfig GenerateProgramConfigLines
      rw [if_neg (by simp [g1, g2, g3, g4])]
      simp [Opt.IsSet, NewOpt]

/-- C2 witness: the spec's `basic-service` zero-setter scenario. -/
theorem claim2_zero_config_render_witness :
    ∃ p, NewProgramConfig "basic-service" "/opt/basic-service" "deploy"
        "/var/log/basic" = some p ∧
      GenerateProgramConfigLines [] p = some
        ["[program:" ++ "basic-service" ++ "]",
         "user            = " ++ "deploy",
         "directory       = " ++ "/opt/basic-service",
         "command         = " ++ goFilepathJoin ["/opt/basic-service", "bin", "basic-service"],
         "stdout_logfile  = " ++ goFilepathJoin ["/var/log/basic", "basic-service" ++ ".log"],
         "stderr_logfile  = " ++ goFilepathJoin ["/var/log/basic", "basic-service" ++ ".err"]] ∧
      GenerateProgramConfig [] p = some (linesToText
        ["[program:" ++ "basic-service" ++ "]",
         "user            = " ++ "deploy",
         "directory       = " ++ "/opt/basic-service",
         "command         = " ++ goFilepathJoin ["/opt/basic-service", "bin", "basic-service"],
         "stdout_logfile  = " ++ goFilepathJoin ["/var/log/basic", "basic-service" ++ ".log"],
         "stderr_logfile  = " ++ goFilepathJoin ["/var/log/basic", "basic-service" ++ ".err"]]) ∧
      p.Environment = NewOpt [] ∧ p.AutoStart = NewOpt true ∧
      p.AutoRestart = NewOpt (GoVal.goString "unexpected") ∧
      p.StartRetries = NewOpt 3 ∧ p.StartSecs = NewOpt 1 ∧
      p.LogMaxBytes = NewOpt "50MB" ∧ p.LogBackups = NewOpt 10 ∧
      p.RedirectStderr = NewOpt false ∧ p.StopAsGroup = NewOpt false ∧
      p.StopWaitSecs = NewOpt 10 ∧ p.KillAsGroup = NewOpt false ∧
      p.StopSignal = NewOpt "TERM" ∧ p.Priority = NewOpt 999 ∧
      p.ExitCodes = NewOpt [0] ∧ p.NumProcs = NewOpt 1 ∧
      p.ProcessName = NewOpt "%(program_name)s" :=
  claim2_zero_config_render "basic-service" "/opt/basic-service" "deploy"
    "/var/log/basic" [] (by decide)

/-- C3 counterexample: for a concrete one-program group the renderer
succeeds, but its output is not the claim's enumerated structure (which
puts one blank line AND one additional blank line after the `programs=`
line before the per-program blank line, i.e. three blank lines before the
first program block): the code prints a single `Println()` there, so only
two blank lines precede the first block. -/
theorem claim3_counterexample :
    (NewGroupConfig "onegroup").map (fun g => g.AddProgram samplePC) =
      some ⟨"onegroup", [samplePC]⟩ ∧
    GenerateGroupConfig (fun _ => []) ⟨"onegroup", [samplePC]⟩ ≠ none ∧
    GenerateGroupConfig (fun _ => []) ⟨"onegroup", [samplePC]⟩ ≠
      some (claimGroupText (fun _ => []) ⟨"onegroup", [samplePC]⟩) := by
  refine ⟨by decide, by decide, by decide⟩

/-- C3 (amended): for a group with non-blank name, at least one program,
and members every render accepts, the output is exactly the header line,
the `programs=` line with member names comma-joined in insertion order,
then ONE blank line (not two), then per program in insertion order one
blank line followed by that program's trimmed single-program rendering,
each line ended by a line terminator (so two blank lines in total precede
the first program block). -/
theorem claim3_group_structure (ordf : ProgramConfig → List (String × String))
    (g : GroupConfig) (hname : g.Name ≠ "") (hne : g.Programs ≠ [])
    (hmem : ∀ p ∈ g.Programs, RequiredOk p ∧ arValueOk p.AutoRestart.Value = true) :
    GenerateGroupConfig ordf g = some (
      "[group:" ++ g.Name ++ "]\n" ++
      "programs=" ++ goStringsJoin (g.Programs.map (fun p => p.Name)) "," ++ "\n" ++
      "\n" ++
      String.join (g.Programs.map (fun p =>
        "\n" ++ goTrimSpace ((GenerateProgramConfig (ordf p) p).getD "") ++ "\n"))) :=
  groupConfig_eq_spec ordf g hname hne hmem

/-- C3 witness: the two-program group of the repository's tests. -/
theorem claim3_group_structure_witness :
    GenerateGroupConfig (fun _ => [])
        ⟨"microservices", [samplePC.WithStartRetries 3, samplePC.WithAutoStart false]⟩ =
      some (
        "[group:" ++ "microservices" ++ "]\n" ++
        "programs=" ++ goStringsJoin
          (([samplePC.WithStartRetries 3, samplePC.WithAutoStart false].map
            (fun p => p.Name))) "," ++ "\n" ++
        "\n" ++
        String.join ([samplePC.WithStartRetries 3, samplePC.WithAutoStart false].map
          (fun p => "\n" ++ goTrimSpace ((GenerateProgramConfig [] p).getD "") ++ "\n"))) :=
  claim3_group_structure (fun _ => [])
    ⟨"microservices", [samplePC.WithStartRetries 3, samplePC.WithAutoStart false]⟩
    (by decide) (by decide) (by decide)

/-- C4 counterexample: the same unmutated configuration, whose environment
was set to a two-key map, rendered under two admissible iteration orders of
those entries (a Go map fixes no order), yields two different texts. -/
theorem claim4_counterexample :
    List.Perm [("A", "1"), ("B", "2")]
      ((samplePC.WithEnvironment [("A", "1"), ("B", "2")]).Environment.Get) ∧
    List.Perm [("B", "2"), ("A", "1")]
      ((samplePC.WithEnvironment [("A", "1"), ("B", "2")]).Environment.Get) ∧
    GenerateProgramConfig [("A", "1"), ("B", "2")]
        (samplePC.WithEnvironment [("A", "1"), ("B", "2")]) ≠
      GenerateProgramConfig [("B", "2"), ("A", "1")]
        (samplePC.WithEnvironment [("A", "1"), ("B", "2")]) := by
  refine ⟨by decide, by decide, by decide⟩

/-- C4 (amended): rendering is a pure function of the configuration and
the environment iteration order, so two renders of the same unmutated
configuration are byte-identical whenever the environment field is unset
or holds at most one entry; with two or more entries the text depends on
the iteration order (see the counterexample). -/
theorem claim4_render_deterministic (p : ProgramConfig)
    (o1 o2 : List (String × String))
    (h1 : List.Perm o1 p.Environment.Get) (h2 : List.Perm o2 p.Environment.Get)
    (hsmall : p.Environment.IsSet = false ∨ p.Environment.Get.length ≤ 1) :
    GenerateProgramConfig o1 p = GenerateProgramConfig o2 p := by
  cases hsmall with
  | inl hset =>
    unfold GenerateProgramConfig
    rw [renderLines_env_unset p hset o1 o2]
  | inr hlen =>
    rw [perm_of_length_le_one h1 hlen, perm_of_length_le_one h2 hlen]

/-- C4 witness: a one-entry environment renders identically whatever the
iteration order (there is only one). -/
theorem claim4_render_deterministic_witness :
    GenerateProgramConfig [("A", "1")] (samplePC.WithEnvironment [("A", "1")]) =
      GenerateProgramConfig [("A", "1")] (samplePC.WithEnvironment [("A", "1")]) :=
  claim4_render_deterministic (samplePC.WithEnvironment [("A", "1")])
    [("A", "1")] [("A", "1")] (by decide) (by decide) (Or.inr (by decide))

/-- C8: after any construction plus setter sequence (the only ways to touch
the auto-restart field are `WithAutoRestart` and `WithAutoRestartMode`),
the autorestart type switch never reaches its fatal `default:` branch, the
whole render succeeds, and when the field is set the emitted line carries
the boolean's literal or the raw mode string of whichever setter ran last. -/
theorem claim8_autorestart_switch_safe (name root userName slogRoot : String)
    (ops : List SetterOp) (ord : List (String × String))
    (h : (buildProgram name root userName slogRoot ops).isSome = true) :
    ∃ p, buildProgram name root userName slogRoot ops = some p ∧
      autorestartLinesOpt p.AutoRestart.Value ≠ none ∧
      (GenerateProgramConfigLines ord p).isSome = true ∧
      (lastARValue ops = none → p.AutoRestart.IsSet = false) ∧
      (∀ b, lastARValue ops = some (GoVal.goBool b) →
        p.AutoRestart.IsSet = true ∧
        autorestartLinesOpt p.AutoRestart.Value =
          some ["autorestart     = " ++ goFormatBool b]) ∧
      (∀ m, lastARValue ops = some (GoVal.goString m) →
        p.AutoRestart.IsSet = true ∧
        autorestartLinesOpt p.AutoRestart.Value =
          some ["autorestart     = " ++ m]) := by
  cases hb : buildProgram name root userName slogRoot ops with
  | none => rw [hb] at h; exact Bool.noConfusion h
  | some p =>
    obtain ⟨ev, es⟩ := buildProgram_ar hb
    have hok := buildProgram_arOk hb
    obtain ⟨-, -, -, -, hreq⟩ := buildProgram_req hb
    refine ⟨p, rfl, ?_, ?_, ?_, ?_, ?_⟩
    · cases hv : p.AutoRestart.Value with
      | goBool b => simp [autorestartLinesOpt]
      | goString s => simp [autorestartLinesOpt]
      | goOther => rw [hv] at hok; exact Bool.noConfusion hok
    · rw [renderLines_eq_spec ord p hreq hok]; rfl
    · intro hnone
      rw [Opt.IsSet, es, hnone]
      rfl
    · intro b hlast
      rw [hlast] at ev es
      refine ⟨by rw [Opt.IsSet, es]; rfl, ?_⟩
      rw [ev]
      rfl
    · intro m hlast
      rw [hlast] at ev es
      refine ⟨by rw [Opt.IsSet, es]; rfl, ?_⟩
      rw [ev]
      rfl

/-- C8 witness: `WithAutoRestart true` then `WithAutoRestartMode "false"`;
the last call wins and the emitted value is the raw mode string. -/
theorem claim8_autorestart_switch_safe_witness :
    ∃ p, buildProgram "myapp" "/opt/myapp" "deploy" "/var/log/myapp"
        [SetterOp.autoRestart true, SetterOp.autoRestartMode "false"] = some p ∧
      autorestartLinesOpt p.AutoRestart.Value ≠ none ∧
      (GenerateProgramConfigLines [] p).isSome = true ∧
      (lastARValue [SetterOp.autoRestart true, SetterOp.autoRestartMode "false"] = none →
        p.AutoRestart.IsSet = false) ∧
      (∀ b, lastARValue [SetterOp.autoRestart true, SetterOp.autoRestartMode "false"] =
          some (GoVal.goBool b) →
        p.AutoRestart.IsSet = true ∧
        autorestartLinesOpt p.AutoRestart.Value =
          some ["autorestart     = " ++ goFormatBool b]) ∧
      (∀ m, lastARValue [SetterOp.autoRestart true, SetterOp.autoRestartMode "false"] =
          some (GoVal.goString m) →
        p.AutoRestart.IsSet = true ∧
        autorestartLinesOpt p.AutoRestart.Value =
          some ["autorestart     = " ++ m]) :=
  claim8_autorestart_switch_safe "myapp" "/opt/myapp" "deploy" "/var/log/myapp"
    [SetterOp.autoRestart true, SetterOp.autoRestartMode "false"] [] (by decide)

/-- C9 counterexample: a group whose name is non-blank and whose program
list is non-empty on which `GenerateGroupConfig` nevertheless fails — its
single member has a blank program name, so the member render's `must.Nice`
guard panics inside the loop — refuting "fails if and only if the group's
name is blank or its program sequence is empty". -/
theorem claim9_counterexample :
    ("badgroup" : String) ≠ "" ∧
    ([{ samplePC with Name := "" }] : List ProgramConfig) ≠ [] ∧
    GenerateGroupConfig (fun _ => [])
      ⟨"badgroup", [{ samplePC with Name := "" }]⟩ = none := by
  refine ⟨by decide, by decide, by decide⟩

/-- C9 (amended): `GenerateGroupConfig` fails on a blank group name or an
empty program sequence, and failure returns no text at all (`none`, never
partial output); conversely, for a group passing those guards whose members
all have non-blank required fields and a type-switch-accepted auto-restart
value, rendering succeeds — member renders are the third way the function
can fail (see the counterexample). -/
theorem claim9_group_guards (ordf : ProgramConfig → List (String × String))
    (g : GroupConfig) :
    ((g.Name = "" ∨ g.Programs = []) → GenerateGroupConfig ordf g = none) ∧
    (g.Name ≠ "" → g.Programs ≠ [] →
      (∀ p ∈ g.Programs, RequiredOk p ∧ arValueOk p.AutoRestart.Value = true) →
      (GenerateGroupConfig ordf g).isSome = true) := by
  constructor
  · intro hb
    unfold GenerateGroupConfig
    cases hb with
    | inl hn => rw [if_pos hn]
    | inr hp =>
      by_cases hn : g.Name = ""
      · rw [if_pos hn]
      · rw [if_neg hn, if_pos (by simp [hp])]
  · intro hname hne hmem
    rw [groupConfig_eq_spec ordf g hname hne hmem]
    rfl

/-- C9 witness: the blank-name guard fires and returns nothing; a valid
two-member group renders successfully. -/
theorem claim9_group_guards_witness :
    GenerateGroupConfig (fun _ => []) ⟨"", [samplePC]⟩ = none ∧
    (GenerateGroupConfig (fun _ => [])
      ⟨"pair", [samplePC, samplePC.WithAutoStart false]⟩).isSome = true :=
  ⟨(claim9_group_guards (fun _ => []) ⟨"", [samplePC]⟩).1 (Or.inl rfl),
   (claim9_group_guards (fun _ => []) ⟨"pair", [samplePC, samplePC.WithAutoStart false]⟩).2
     (by decide) (by decide) (by decide)⟩

/-- C10: with the exit-codes field set to the empty list the `exitcodes`
line is still emitted, with nothing after the equals sign (the flag alone
controls emission); with the environment field set but the joined mapping
text empty, the rendering is identical to the one with the environment flag
down — no environment line is emitted. -/
theorem claim10_empty_values (p : ProgramConfig) (ord : List (String × String))
    (hreq : RequiredOk p) (har : arValueOk p.AutoRestart.Value = true) :
    (p.ExitCodes.IsSet = true → p.ExitCodes.Get = [] →
      ∃ ls, GenerateProgramConfigLines ord p = some ls ∧
        "exitcodes       = " ∈ ls) ∧
    (p.Environment.IsSet = true → ord = [] →
      GenerateProgramConfigLines ord p =
        GenerateProgramConfigLines ord
          { p with Environment := ⟨p.Environment.Get, false⟩ }) := by
  constructor
  · intro hset hget
    refine ⟨specRenderLines ord p, renderLines_eq_spec ord p hreq har, ?_⟩
    unfold specRenderLines
    rw [if_pos hset]
    simp [hget, combineInts]
  · intro hset hord
    subst hord
    unfold GenerateProgramConfigLines
    simp [combineSsMap, Opt.IsSet, Opt.Get]

/-- C10 witness: `WithExitCodes []` plus `WithEnvironment` with the empty
map on a valid construction. -/
theorem claim10_empty_values_witness :
    (∃ ls, GenerateProgramConfigLines []
        ((samplePC.WithExitCodes []).WithEnvironment []) = some ls ∧
      "exitcodes       = " ∈ ls) ∧
    GenerateProgramConfigLines [] ((samplePC.WithExitCodes []).WithEnvironment []) =
      GenerateProgramConfigLines []
        { (samplePC.WithExitCodes []).WithEnvironment [] with
          Environment :=
            ⟨((samplePC.WithExitCodes []).WithEnvironment []).Environment.Get, false⟩ } :=
  ⟨(claim10_empty_values ((samplePC.WithExitCodes []).WithEnvironment []) []
      (by decide) (by decide)).1 (by decide) (by decide),
   (claim10_empty_values ((samplePC.WithExitCodes []).WithEnvironment []) []
      (by decide) (by decide)).2 (by decide) rfl⟩
